import Mathlib

/-!
Shallow embedding of the repository's two source modules.

`app.py` is a linear ML pipeline: every pipeline function
(load_data, preprocess_data, create_model, train_model, predict)
wraps its body in the same pattern

  with tracer.start_as_current_span(...):
      start_time = time.time()
      try:
          <body>
          record_api_call()
          log_resource_utilization()
          return <result>
      except Exception as e:
          record_error()
          logger.error(...)
      finally:
          track_latency(start_time)

so a failing body is caught, the error counter is bumped, a latency
sample is recorded by the finally-block, and the function falls off the
end returning None.  We model the body of each function as an
`Except err result` value and the wrapper as `runStage`, which turns it
into `Option result` together with the metric-counter effects.
Numeric values are modelled as exact rationals.

`metrics.py` holds the observability middleware: a process-global
`serviceInstanceID`, the identity-verification stub
`verify_instance_api`, resource construction with default fallbacks,
and `metrics_and_traces_middleware`, which on handler success records
API_CALLS/API_LATENCY/REQUEST_TIME/REQUEST_COUNT/ENDPOINT_POPULARITY and
on handler exception records only API_ERRORS and re-raises.
-/

namespace NewOtel

/-! ### app.py: metric helpers (lines 36-48) -/

/-- Counter/histogram state touched by the pipeline helpers in app.py:
`performance_counter` (api_calls), `error_counter` (api_errors) and the
number of samples recorded into `latency_histogram`. -/
structure Metrics where
  apiCalls : Nat
  apiErrors : Nat
  latencySamples : Nat
deriving Repr, DecidableEq

def Metrics.init : Metrics := ⟨0, 0, 0⟩

/-- app.py line 36: `performance_counter.add(1)`. -/
def record_api_call (m : Metrics) : Metrics :=
  { m with apiCalls := m.apiCalls + 1 }

/-- app.py line 47: `error_counter.add(1)`. -/
def record_error (m : Metrics) : Metrics :=
  { m with apiErrors := m.apiErrors + 1 }

/-- app.py line 40: `latency_histogram.record(latency)` - one sample per
call; executed in every function's finally-block. -/
def track_latency (m : Metrics) : Metrics :=
  { m with latencySamples := m.latencySamples + 1 }

/-- The try/except/finally wrapper shared verbatim by all five pipeline
functions of app.py.  A successful body records one api call then one
latency sample and yields `some result`; a raising body is caught,
records one error then one latency sample, and the function returns
None (`none`). The resource-utilization gauge writes are not modelled. -/
def runStage {err res : Type} (m : Metrics) (body : Except err res) :
    Option res × Metrics :=
  match body with
  | Except.ok a => (some a, track_latency (record_api_call m))
  | Except.error _ => (none, track_latency (record_error m))

/-! ### app.py: load_data (lines 59-71) -/

/-- Failure of `pd.read_csv`: missing or malformed source file. -/
inductive LoadError
  | dataUnavailable
deriving Repr, DecidableEq

/-- Body of app.py `load_data` (lines 62-66): `pd.read_csv(file_path)`
raises when the source is missing or malformed (modelled as `none`);
otherwise the frame is truncated to its first 5000 rows by
`data[:5000]`. -/
def load_dataCore {Row : Type} (file : Option (List Row)) :
    Except LoadError (List Row) :=
  match file with
  | none => Except.error LoadError.dataUnavailable
  | some rows => Except.ok (rows.take 5000)

/-- app.py `load_data`, with its try/except/finally wrapper. -/
def load_data {Row : Type} (m : Metrics) (file : Option (List Row)) :
    Option (List Row) × Metrics :=
  runStage m (load_dataCore file)

/-! ### app.py: preprocess_data (lines 73-96) -/

/-- sklearn MinMaxScaler with feature_range=(0,1), fitted: it stores the
data minimum and the (zero-protected) data range. sklearn replaces a
zero range by 1 (`_handle_zeros_in_scale`), which `fit` below mirrors. -/
structure MinMaxScaler where
  dataMin : ℚ
  dataRange : ℚ
deriving Repr, DecidableEq

/-- Fitting the scaler on the Close column (app.py line 78).  sklearn's
`fit_transform` raises ValueError on an array with 0 samples, so the
empty list yields no scaler. -/
def fit : List ℚ → Option MinMaxScaler
  | [] => none
  | d :: ds =>
    let dmin := ds.foldl min d
    let dmax := ds.foldl max d
    let r := dmax - dmin
    some ⟨dmin, if r = 0 then 1 else r⟩

/-- MinMaxScaler.transform with feature_range (0,1):
scaled value = (x - data_min) / data_range. -/
def transform (s : MinMaxScaler) (x : ℚ) : ℚ :=
  (x - s.dataMin) / s.dataRange

/-- MinMaxScaler.inverse_transform: x = scaled * data_range + data_min. -/
def inverse_transform (s : MinMaxScaler) (y : ℚ) : ℚ :=
  y * s.dataRange + s.dataMin

/-- app.py line 81: `sequence_length = 60`, the lookback window. -/
def sequence_length : Nat := 60

/-- Failure of the preprocess_data body.  Both raise sites occur exactly
when the series is too short: sklearn's `fit_transform` raises
ValueError on an empty array, and `np.reshape(x, (x.shape[0],
x.shape[1], 1))` raises IndexError when the window list `x` is empty
(an empty 1-d array has no second shape component). -/
inductive PrepError
  | insufficientData
deriving Repr, DecidableEq

/-- The windows, targets and scaler produced by preprocess_data. -/
structure PrepResult where
  x : List (List ℚ)
  y : List ℚ
  scaler : MinMaxScaler
deriving Repr, DecidableEq

/-- The loop of app.py lines 83-84 on the x side: for each index i in
range(sequence_length, len(scaled)), the window scaled[i-60:i]. -/
def makeWindows (scaled : List ℚ) : List (List ℚ) :=
  (List.range' sequence_length (scaled.length - sequence_length)).map
    (fun i => (scaled.drop (i - sequence_length)).take sequence_length)

/-- The loop of app.py lines 83-85 on the y side: for each index i in
range(sequence_length, len(scaled)), the next value scaled[i]. -/
def makeTargets (scaled : List ℚ) : List ℚ :=
  (List.range' sequence_length (scaled.length - sequence_length)).map
    (fun i => scaled.getD i 0)

/-- Body of app.py `preprocess_data` (lines 77-91): fit-and-apply the
scaler to the Close column, then for each index i in
range(sequence_length, len(scaled)) emit the window scaled[i-60:i] and
the target scaled[i]; the final reshape fails when no window exists. -/
def preprocess_dataCore (close : List ℚ) : Except PrepError PrepResult :=
  match fit close with
  | none => Except.error PrepError.insufficientData
  | some scaler =>
    let scaled := close.map (transform scaler)
    let x := makeWindows scaled
    if x.isEmpty then Except.error PrepError.insufficientData
    else Except.ok ⟨x, makeTargets scaled, scaler⟩

/-- app.py `preprocess_data`, with its try/except/finally wrapper. -/
def preprocess_data (m : Metrics) (close : List ℚ) :
    Option PrepResult × Metrics :=
  runStage m (preprocess_dataCore close)

/-! ### app.py: create_model / train_model / predict (lines 98-144) -/

/-- Failure of the create_model body (`Sequential()` construction or
`model.compile`). -/
inductive CreateError
  | creationFailure
deriving Repr, DecidableEq

/-- Failure of `model.fit` (numerical divergence, invalid shapes). -/
inductive TrainError
  | trainingFailure
deriving Repr, DecidableEq

/-- Failure of the predict body: `model.predict(x_test)` raises
AttributeError when `model` is None (nothing was trained), and can raise
on invalid input shapes. -/
inductive PredictError
  | notTrained
  | predictionFailure
deriving Repr, DecidableEq

/-- A Keras model, abstracted to the function its forward pass computes.
The network internals (two LSTM layers of width 50, dropout 0.2, dense
output of width 1, adam optimizer, mse loss) live inside the external
framework and are not inspected by any claim. -/
structure Model where
  forward : List (List ℚ) → List ℚ

/-- app.py `create_model` (lines 98-116): the body is one call into the
external framework, supplied here as its `Except` outcome; the wrapper
is the shared try/except/finally pattern. -/
def create_model (m : Metrics) (built : Except CreateError Model) :
    Option Model × Metrics :=
  runStage m built

/-- app.py `train_model` (lines 118-130): the body is `model.fit`, one
call into the external framework, supplied here as its `Except`
outcome; the wrapper is the shared try/except/finally pattern. -/
def train_model (m : Metrics) (fitted : Except TrainError Model) :
    Option Model × Metrics :=
  runStage m fitted

/-- Body of app.py `predict` (line 136): `model.predict(x_test)`.  When
`model` is None - no training has happened - the attribute access raises
(AttributeError), modelled as the notTrained failure; otherwise the
forward pass runs. -/
def predictCore (model : Option Model) (x_test : List (List ℚ)) :
    Except PredictError (List ℚ) :=
  match model with
  | none => Except.error PredictError.notTrained
  | some md => Except.ok (md.forward x_test)

/-- app.py `predict`, with its try/except/finally wrapper. -/
def predict (m : Metrics) (model : Option Model) (x_test : List (List ℚ)) :
    Option (List ℚ) × Metrics :=
  runStage m (predictCore model x_test)

/-! ### metrics.py: globals and identity (lines 19-57, 139-140) -/

/-- metrics.py line 20. -/
def serviceName : String := "mlass"

/-- metrics.py line 21. -/
def serviceVersion : String := "1.0.0"

/-- metrics.py line 22: the initial value of the process-global
`serviceInstanceID`. -/
def initialServiceInstanceID : String := "instance-1"

/-- metrics.py lines 44-46: `get_current_instance_id` reads the
process-global `serviceInstanceID`, here passed explicitly. -/
def get_current_instance_id (serviceInstanceID : String) : String :=
  serviceInstanceID

/-- One log line produced by CustomLogFormatter (metrics.py lines
30-37): a JSON object with instanceId, loglevel and logs fields. -/
structure LogRecord where
  instanceId : String
  loglevel : String
  logs : String
deriving Repr, DecidableEq

/-- CustomLogFormatter.format (metrics.py lines 30-37): the instanceId
field is fetched dynamically through `get_current_instance_id`, the
level name is lower-cased, the message is passed through. -/
def formatLog (serviceInstanceID levelname message : String) : LogRecord :=
  { instanceId := get_current_instance_id serviceInstanceID
  , loglevel := levelname.toLower
  , logs := message }

/-- The dict returned by `verify_instance_api` (metrics.py line 140).
Fields are optional because the middleware reads each one with
`dict.get(key, default)`. -/
structure VerificationInfo where
  instance_id : Option String
  service_id : Option String
  app_id : Option String
deriving Repr, DecidableEq

/-- The empty dict `\x7b\x7d` the middleware substitutes for a falsy
verification result (metrics.py line 154, `... or \x7b\x7d`). -/
def VerificationInfo.empty : VerificationInfo := ⟨none, none, none⟩

/-- metrics.py lines 139-140: the verification stub unconditionally
returns the given instance id together with hard-coded service and app
ids; the api key argument is never read. -/
def verify_instance_api (instance_id service_api_key : String) :
    VerificationInfo :=
  ⟨some instance_id, some "service-123", some "app-456"⟩

/-- The resource attributes built by `create_resource` (metrics.py
lines 75-82). -/
structure Resource where
  service_name : String
  service_version : String
  service_instance_id : String
  service_id : String
  app_id : String
deriving Repr, DecidableEq

/-- metrics.py lines 75-82: `create_resource` combines the global
service name/version with the per-request identity attributes. -/
def create_resource (instance_id service_id app_id : String) : Resource :=
  ⟨serviceName, serviceVersion, instance_id, service_id, app_id⟩

/-- Middleware identity resolution (metrics.py lines 153-159): a falsy
verification result is replaced by the empty dict, then each attribute
is read with a default - the current serviceInstanceID for instance_id,
"unknown_service" and "unknown_app" for the other two.  This function
is total: no verification outcome rejects the request. -/
def resolveResource (serviceInstanceID : String)
    (verification_info : Option VerificationInfo) : Resource :=
  let v := verification_info.getD VerificationInfo.empty
  create_resource
    (v.instance_id.getD serviceInstanceID)
    (v.service_id.getD "unknown_service")
    (v.app_id.getD "unknown_app")

/-- metrics.py line 150:
`serviceInstanceID = request.query_params.get("instance_id", serviceInstanceID) or serviceInstanceID`.
An absent query parameter keeps the current global; a present one
overwrites it unless it is the empty string, which is falsy in Python
and the trailing `or` falls back to the current global. -/
def updateInstanceID (serviceInstanceID : String)
    (instance_id_param : Option String) : String :=
  match instance_id_param with
  | none => serviceInstanceID
  | some v => if v = "" then serviceInstanceID else v

/-- The global `serviceInstanceID` after the middleware has processed a
sequence of requests, each given by its optional instance_id query
parameter, starting from `init`. -/
def processRequests (init : String) (reqs : List (Option String)) : String :=
  reqs.foldl updateInstanceID init

/-! ### metrics.py: middleware metric effects (lines 146-226) -/

/-- The counters/histograms touched by `metrics_and_traces_middleware`:
API_CALLS, samples into API_LATENCY, samples into REQUEST_TIME,
REQUEST_COUNT, ENDPOINT_POPULARITY, API_ERRORS. -/
structure MwMetrics where
  apiCalls : Nat
  latencySamples : Nat
  requestTimeSamples : Nat
  requestCount : Nat
  endpointPopularity : Nat
  apiErrors : Nat
deriving Repr, DecidableEq

def MwMetrics.init : MwMetrics := ⟨0, 0, 0, 0, 0, 0⟩

/-- The metric effects of `metrics_and_traces_middleware` (metrics.py
lines 146-226) as a function of the downstream handler's outcome.  On
success (lines 171-211) the middleware adds 1 to API_CALLS, records one
API_LATENCY sample and one REQUEST_TIME sample, adds 1 to REQUEST_COUNT
and ENDPOINT_POPULARITY, and returns the response.  When `call_next`
raises, control jumps from line 171 to the except-block (lines
213-226), which only adds 1 to API_ERRORS, logs, and re-raises: none of
the success-path metric statements run. -/
def metrics_and_traces_middleware {Exn Resp : Type} (m : MwMetrics)
    (outcome : Except Exn Resp) : Except Exn Resp × MwMetrics :=
  match outcome with
  | Except.ok r =>
    (Except.ok r,
      { m with
        apiCalls := m.apiCalls + 1
        latencySamples := m.latencySamples + 1
        requestTimeSamples := m.requestTimeSamples + 1
        requestCount := m.requestCount + 1
        endpointPopularity := m.endpointPopularity + 1 })
  | Except.error e =>
    (Except.error e, { m with apiErrors := m.apiErrors + 1 })

/-! ### Helper lemmas -/

/-- The window list built by preprocess_data over a scaled series has
one window per index in range(sequence_length, len). -/
theorem length_makeWindows (scaled : List ℚ) :
    (makeWindows scaled).length = scaled.length - sequence_length := by
  simp [makeWindows]

/-- The target list built by preprocess_data has the same count. -/
theorem length_makeTargets (scaled : List ℚ) :
    (makeTargets scaled).length = scaled.length - sequence_length := by
  simp [makeTargets]

/-- Every window produced by preprocess_data has exactly
sequence_length elements. -/
theorem mem_makeWindows_length (scaled : List ℚ) (w : List ℚ)
    (hw : w ∈ makeWindows scaled) : w.length = sequence_length := by
  simp only [makeWindows, List.mem_map] at hw
  obtain ⟨i, hi, rfl⟩ := hw
  rw [List.mem_range'_1] at hi
  rw [List.length_take, List.length_drop]
  omega

/-- A fitted scaler never has a zero range: sklearn replaces a zero
data range by 1 before dividing. -/
theorem fit_dataRange_ne_zero (close : List ℚ) (s : MinMaxScaler)
    (h : fit close = some s) : s.dataRange ≠ 0 := by
  cases close with
  | nil => simp [fit] at h
  | cons d ds =>
    simp only [fit] at h
    injection h with h
    subst h
    dsimp only
    split
    · exact one_ne_zero
    · assumption

/-- Requests that do not carry the instance_id query parameter leave
the global serviceInstanceID unchanged. -/
theorem processRequests_all_none (s : String) (reqs : List (Option String))
    (h : ∀ p ∈ reqs, p = none) : processRequests s reqs = s := by
  induction reqs with
  | nil => rfl
  | cons a tl ih =>
    have ha : a = none := h a (List.mem_cons_self a tl)
    subst ha
    exact ih (fun p hp => h p (List.mem_cons_of_mem _ hp))

/-! ### Claim theorems -/

/-- C1: for every price series with at least sequence_length + 1 = 61
values, preprocess_data succeeds and produces exactly
len(series) - sequence_length (window, next-value) pairs, every input
window having exactly sequence_length elements. -/
theorem preprocess_data_window_count (close : List ℚ)
    (h : sequence_length + 1 ≤ close.length) :
    ∃ r, preprocess_dataCore close = Except.ok r ∧
      r.x.length = close.length - sequence_length ∧
      r.y.length = close.length - sequence_length ∧
      ∀ w ∈ r.x, w.length = sequence_length := by
  cases close with
  | nil => simp [sequence_length] at h
  | cons d ds =>
    cases hf : fit (d :: ds) with
    | none => simp [fit] at hf
    | some s =>
      have hlen : (makeWindows ((d :: ds).map (transform s))).length =
          (d :: ds).length - sequence_length := by
        rw [length_makeWindows, List.length_map]
      have hpos : 0 < (makeWindows ((d :: ds).map (transform s))).length := by
        rw [hlen]; omega
      have hne : (makeWindows ((d :: ds).map (transform s))).isEmpty = false := by
        rw [List.isEmpty_eq_false]
        exact List.length_pos.mp hpos
      refine ⟨⟨makeWindows ((d :: ds).map (transform s)),
              makeTargets ((d :: ds).map (transform s)), s⟩, ?_, hlen, ?_, ?_⟩
      · simp only [preprocess_dataCore, hf, hne]
        rfl
      · rw [length_makeTargets, List.length_map]
      · exact fun w hw => mem_makeWindows_length _ w hw

/-- C1 witness: the 61-value series 0, 1, ..., 60 yields exactly one
(window, next-value) pair whose window has 60 elements. -/
theorem preprocess_data_window_count_witness :
    sequence_length + 1 ≤ (List.map (fun n => (n : ℚ)) (List.range 61)).length ∧
    ∃ r, preprocess_dataCore (List.map (fun n => (n : ℚ)) (List.range 61)) =
        Except.ok r ∧
      r.x.length = (List.map (fun n => (n : ℚ)) (List.range 61)).length - sequence_length ∧
      r.y.length = (List.map (fun n => (n : ℚ)) (List.range 61)).length - sequence_length ∧
      ∀ w ∈ r.x, w.length = sequence_length :=
  ⟨by simp only [List.length_map, List.length_range]; decide,
   preprocess_data_window_count _
     (by simp only [List.length_map, List.length_range]; decide)⟩

/-- C2: for every price series shorter than the lookback length 60 the
preprocessing body fails - the input is insufficient - and the wrapped
function returns no result, rather than producing zero windows. -/
theorem preprocess_data_short_series_fails (close : List ℚ) (m : Metrics)
    (h : close.length < sequence_length) :
    preprocess_dataCore close = Except.error PrepError.insufficientData ∧
    (preprocess_data m close).1 = none := by
  have hcore : preprocess_dataCore close = Except.error PrepError.insufficientData := by
    cases close with
    | nil => rfl
    | cons d ds =>
      cases hf : fit (d :: ds) with
      | none => simp [fit] at hf
      | some s =>
        have hempty : makeWindows ((d :: ds).map (transform s)) = [] := by
          apply List.eq_nil_of_length_eq_zero
          have hlen := length_makeWindows ((d :: ds).map (transform s))
          rw [List.length_map] at hlen
          omega
        simp only [preprocess_dataCore, hf, hempty]
        rfl
  refine ⟨hcore, ?_⟩
  simp [preprocess_data, runStage, hcore]

/-- C2 witness: the 59-value series 0, 1, ..., 58 - the sample
fixture scenario - makes preprocessing fail instead of yielding a
zero-window result. -/
theorem preprocess_data_short_series_fails_witness :
    (List.map (fun n => (n : ℚ)) (List.range 59)).length < sequence_length ∧
    (preprocess_dataCore (List.map (fun n => (n : ℚ)) (List.range 59)) =
        Except.error PrepError.insufficientData ∧
     (preprocess_data Metrics.init (List.map (fun n => (n : ℚ)) (List.range 59))).1 =
        none) :=
  ⟨by simp only [List.length_map, List.length_range]; decide,
   preprocess_data_short_series_fails _ Metrics.init
     (by simp only [List.length_map, List.length_range]; decide)⟩

/-- C3: calling predict with no model (no training has happened, the
model slot is None) makes the body fail with the not-trained error, and
the call never yields a numeric prediction list. -/
theorem predict_without_model_never_numeric (m : Metrics)
    (x_test : List (List ℚ)) :
    predictCore none x_test = Except.error PredictError.notTrained ∧
    (predict m none x_test).1 = none ∧
    ∀ preds : List ℚ, (predict m none x_test).1 ≠ some preds :=
  ⟨rfl, rfl, fun preds h => Option.noConfusion h⟩

/-- C4 counterexample: a request whose handler raises records zero
latency samples and zero call-count increments - not one of each as the
claim states - while the error counter does go up by one.  The metric
statements of the success path sit after the handler call and are
skipped when it raises. -/
theorem middleware_error_path_counterexample :
    ¬ ((metrics_and_traces_middleware MwMetrics.init
          (Except.error () : Except Unit Unit)).2.latencySamples = 1 ∧
       (metrics_and_traces_middleware MwMetrics.init
          (Except.error () : Except Unit Unit)).2.apiCalls = 1) ∧
    (metrics_and_traces_middleware MwMetrics.init
        (Except.error () : Except Unit Unit)).2.latencySamples = 0 ∧
    (metrics_and_traces_middleware MwMetrics.init
        (Except.error () : Except Unit Unit)).2.apiCalls = 0 ∧
    (metrics_and_traces_middleware MwMetrics.init
        (Except.error () : Except Unit Unit)).2.apiErrors = 1 := by
  refine ⟨fun hc => ?_, rfl, rfl, rfl⟩
  exact absurd hc.1 (by decide)

/-- C4 amended: on handler success the middleware records exactly one
latency sample and one call-count increment and no error increment; on
handler exception it records no latency sample and no call-count
increment, exactly one error increment, and re-raises the exception. -/
theorem middleware_metrics_per_outcome {Exn Resp : Type} (m : MwMetrics) :
    (∀ r : Resp,
      (metrics_and_traces_middleware m (Except.ok r : Except Exn Resp)).2.latencySamples
          = m.latencySamples + 1 ∧
      (metrics_and_traces_middleware m (Except.ok r : Except Exn Resp)).2.apiCalls
          = m.apiCalls + 1 ∧
      (metrics_and_traces_middleware m (Except.ok r : Except Exn Resp)).2.apiErrors
          = m.apiErrors ∧
      (metrics_and_traces_middleware m (Except.ok r : Except Exn Resp)).1
          = Except.ok r) ∧
    (∀ e : Exn,
      (metrics_and_traces_middleware m (Except.error e : Except Exn Resp)).2.latencySamples
          = m.latencySamples ∧
      (metrics_and_traces_middleware m (Except.error e : Except Exn Resp)).2.apiCalls
          = m.apiCalls ∧
      (metrics_and_traces_middleware m (Except.error e : Except Exn Resp)).2.apiErrors
          = m.apiErrors + 1 ∧
      (metrics_and_traces_middleware m (Except.error e : Except Exn Resp)).1
          = Except.error e) :=
  ⟨fun r => ⟨rfl, rfl, rfl, rfl⟩, fun e => ⟨rfl, rfl, rfl, rfl⟩⟩

/-- C5: transforming a value of the fitted series with the min-max
scaler and inverse-transforming the result reconstructs the value
exactly (the embedding computes with exact rationals, so the
floating-point tolerance is met with zero error). -/
theorem scaler_round_trip (close : List ℚ) (s : MinMaxScaler)
    (h : fit close = some s) (x : ℚ) (hx : x ∈ close) :
    inverse_transform s (transform s x) = x := by
  have hr := fit_dataRange_ne_zero close s h
  unfold transform inverse_transform
  rw [div_mul_cancel₀ _ hr]
  ring

/-- C5 witness: fitting on the series 1, 3 gives the scaler with
minimum 1 and range 2, and the value 3 round-trips through
transform and inverse_transform. -/
theorem scaler_round_trip_witness :
    fit [(1 : ℚ), 3] = some ⟨1, 2⟩ ∧ (3 : ℚ) ∈ [(1 : ℚ), 3] ∧
    inverse_transform ⟨1, 2⟩ (transform ⟨1, 2⟩ 3) = 3 :=
  ⟨by norm_num [fit], by norm_num,
   scaler_round_trip [1, 3] ⟨1, 2⟩ (by norm_num [fit]) 3 (by norm_num)⟩

/-- C6: on a readable source with n rows, load_data returns exactly the
first min(n, 5000) rows - truncated to the 5000-row cap, otherwise
unchanged and in the original order. -/
theorem load_data_truncates_to_cap {Row : Type} (rows : List Row) :
    ∃ out, load_dataCore (some rows) = Except.ok out ∧
      out.length = min rows.length 5000 ∧
      ∀ i : Nat, i < out.length → out.get? i = rows.get? i := by
  refine ⟨rows.take 5000, rfl, ?_, ?_⟩
  · rw [List.length_take, Nat.min_comm]
  · intro i hi
    rw [List.length_take] at hi
    exact List.get?_take (by omega)

/-- C7: identity verification always succeeds, echoing the given
instance id next to the hard-coded service and app ids, and middleware
identity resolution is total - a missing or empty verification result
falls back to the default identity values instead of rejecting. -/
theorem verify_never_rejects (instance_id service_api_key sid : String) :
    verify_instance_api instance_id service_api_key =
      ⟨some instance_id, some "service-123", some "app-456"⟩ ∧
    resolveResource sid none =
      create_resource sid "unknown_service" "unknown_app" ∧
    resolveResource sid (some VerificationInfo.empty) =
      create_resource sid "unknown_service" "unknown_app" ∧
    resolveResource sid (some (verify_instance_api instance_id service_api_key)) =
      create_resource instance_id "service-123" "app-456" :=
  ⟨rfl, rfl, rfl, rfl⟩

/-- C8: every pipeline function, when its body raises, catches the
exception, increments the error counter (and the finally-block records
a latency sample), and returns None instead of propagating; the
returned value is the same `none` for every error kind, so no failure
cause is distinguishable from the return value. -/
theorem pipeline_swallows_exceptions (m : Metrics) :
    (track_latency (record_error m)).apiErrors = m.apiErrors + 1 ∧
    (∀ Row : Type, load_data m (none : Option (List Row)) =
      (none, track_latency (record_error m))) ∧
    (∀ (close : List ℚ) (e : PrepError),
      preprocess_dataCore close = Except.error e →
      preprocess_data m close = (none, track_latency (record_error m))) ∧
    (∀ e : CreateError, create_model m (Except.error e) =
      (none, track_latency (record_error m))) ∧
    (∀ e : TrainError, train_model m (Except.error e) =
      (none, track_latency (record_error m))) ∧
    (∀ x_test : List (List ℚ), predict m none x_test =
      (none, track_latency (record_error m))) ∧
    (∀ (err res : Type) (e e2 : err),
      (runStage m (Except.error e : Except err res)).1 =
      (runStage m (Except.error e2 : Except err res)).1) := by
  refine ⟨rfl, fun Row => rfl, ?_, fun e => rfl, fun e => rfl,
    fun x_test => rfl, fun err res e e2 => rfl⟩
  intro close e he
  simp [preprocess_data, runStage, he]

/-- C9: the verification result is independent of the API key - the
Authorization credential has no influence on identity resolution. -/
theorem verify_ignores_api_key (instance_id key1 key2 : String) :
    verify_instance_api instance_id key1 = verify_instance_api instance_id key2 :=
  rfl

/-- C10 counterexample: a request carrying an empty instance_id query
parameter does not overwrite the global - the trailing
`or serviceInstanceID` keeps the old value - so later requests use the
old identity, not the carried (empty) one, refuting the claim for the
empty-string parameter value. -/
theorem instance_id_empty_param_counterexample :
    updateInstanceID "instance-1" (some "") = "instance-1" ∧
    processRequests "instance-1" [some "", none] = "instance-1" ∧
    ("instance-1" : String) ≠ "" := by
  refine ⟨rfl, rfl, ?_⟩
  decide

/-- C10 amended: for every nonempty parameter value v, a request
carrying instance_id=v overwrites the process-global serviceInstanceID,
and every later request that omits the parameter - and every log record
formatted in between - uses v as its instance identity. -/
theorem instance_id_leaks_across_requests (init v : String) (hv : v ≠ "")
    (laters : List (Option String)) (hl : ∀ p ∈ laters, p = none)
    (lvl msg : String) :
    processRequests init (some v :: laters) = v ∧
    (formatLog (processRequests init (some v :: laters)) lvl msg).instanceId = v := by
  have hstep : updateInstanceID init (some v) = v := by
    simp only [updateInstanceID, if_neg hv]
  have h1 : processRequests init (some v :: laters) = v := by
    show processRequests (updateInstanceID init (some v)) laters = v
    rw [hstep]
    exact processRequests_all_none v laters hl
  exact ⟨h1, by rw [h1]; rfl⟩

/-- C10 amended witness: after a request carrying
instance_id=instance-2, two later requests without the parameter still
see instance-2, and a log record formatted then carries instance-2. -/
theorem instance_id_leaks_across_requests_witness :
    ("instance-2" : String) ≠ "" ∧
    (∀ p ∈ ([none, none] : List (Option String)), p = none) ∧
    (processRequests "instance-1" (some "instance-2" :: [none, none]) =
        "instance-2" ∧
     (formatLog (processRequests "instance-1" (some "instance-2" :: [none, none]))
        "INFO" "request done").instanceId = "instance-2") :=
  ⟨by decide, by decide,
   instance_id_leaks_across_requests "instance-1" "instance-2" (by decide)
     [none, none] (by decide) "INFO" "request done"⟩

end NewOtel
